import Mathlib

/-!
Verification of the event-matching core of headgait (src/utils_/functions_.py):
compare_events, MetricsGaitEvents and modelEvaluate.

Modelling conventions:
* numpy integer arrays are List Int; the unmatched sentinel is the literal -999,
  as in the source.
* numpy operations that can raise are modelled with Option: elementwise
  subtraction of 1-D arrays raises ValueError unless the lengths agree or one
  length is 1 (broadcasting), fancy-index assignment raises unless the value
  length equals the index count or is 1, and integer indexing past the end
  raises IndexError.
* the external collaborators (the keras model, scipy find_peaks, plotting,
  .mat loading) are outside the matching core; modelEvaluate takes each
  window's predicted-peak index list as input.
-/

namespace HeadGait

/-- np.argmin(np.abs(bs - x)): index of the first entry of bs with minimal
absolute distance to x (functions_.py lines 116, 121). -/
def argminAbs (bs : List Int) (x : Int) : Nat :=
  (List.range bs.length).foldl
    (fun best j =>
      if (bs.getD j 0 - x).natAbs < (bs.getD best 0 - x).natAbs then j else best)
    0

/-- np.unique: the sorted list of distinct values. -/
def uniqueSorted (l : List Int) : List Int :=
  (List.insertionSort (fun a b => a ≤ b) l).dedup

/-- Boolean-mask selection xs[ptr > -999] (same-length arrays). -/
def maskGt (xs ptr : List Int) : List Int :=
  (List.zip xs ptr).filterMap (fun p => if -999 < p.2 then some p.1 else none)

/-- Boolean-mask selection xs[ptr != -999] (same-length arrays). -/
def maskNe (xs ptr : List Int) : List Int :=
  (List.zip xs ptr).filterMap (fun p => if p.2 ≠ -999 then some p.1 else none)

/-- One step of the many-to-one resolution loop (functions_.py lines 127-132):
for value u, if more than one position of cur holds u, every such position
except other[u] is set to -999 (np.setdiff1d(indices, other[u]) followed by the
fancy-index assignment). -/
def resolveStep (other cur : List Int) (u : Int) : List Int :=
  if 1 < ((List.range cur.length).filter (fun i => cur.getD i 0 == u)).length then
    (((List.range cur.length).filter (fun i => cur.getD i 0 == u)).filter
        (fun (i : Nat) => ((i : Int) != other.getD u.toNat 0))).foldl
      (fun c i => c.set i (-999)) cur
  else cur

/-- Many-to-one resolution (functions_.py lines 126-132 and 134-138): the
resolution step applied for every value of ptr, iterated in np.unique order. -/
def resolveDuplicates (ptr other : List Int) : List Int :=
  (uniqueSorted ptr).foldl (resolveStep other) ptr

/-- One reciprocity pass (functions_.py lines 144, 147, 150): every valid
pointer of ptr whose target in other has been invalidated is set to -999. -/
def reciprocityPass (ptr other : List Int) : List Int :=
  ptr.map (fun v => if -999 < v ∧ other.getD v.toNat 0 == -999 then -999 else v)

/-- numpy elementwise subtraction of two 1-D integer arrays with broadcasting:
defined when the lengths agree or one of them is 1, ValueError (none)
otherwise. -/
def broadcastSub (u v : List Int) : Option (List Int) :=
  if u.length = v.length then some (List.zipWith (fun a b => a - b) u v)
  else if u.length = 1 then some (v.map (fun b => u.getD 0 0 - b))
  else if v.length = 1 then some (u.map (fun a => a - v.getD 0 0))
  else none

/-- Threshold-rejection loop (functions_.py lines 158-161): walking time_diff
backwards, every pair whose absolute difference exceeds thr has a2b cleared at
position idxb[ti] and b2a cleared at position idxa[ti], where idxa and idxb are
the pre-loop copies of the valid pointer values. Indexing idxb or idxa past
its end raises IndexError (none). -/
def thresholdStep (idxa idxb td : List Int) (thr : Int)
    (st : Option (List Int × List Int)) (ti : Nat) :
    Option (List Int × List Int) :=
  match st with
  | none => none
  | some (ab, ba) =>
    if thr < ((td.getD ti 0).natAbs : Int) then
      if ti < idxb.length then
        if ti < idxa.length then
          some (ab.set (idxb.getD ti 0).toNat (-999),
                ba.set (idxa.getD ti 0).toNat (-999))
        else none
      else none
    else some (ab, ba)

def thresholdLoop (a2b b2a idxa idxb td : List Int) (thr : Int) :
    Option (List Int × List Int) :=
  (List.range td.length).reverse.foldl (thresholdStep idxa idxb td thr)
    (some (a2b, b2a))

/-- Nearest-candidate pass a2b (functions_.py lines 114-117). -/
def a2bNearest (annotated predicted : List Int) : List Int :=
  annotated.map (fun a => ((argminAbs predicted a : Nat) : Int))

/-- Nearest-candidate pass b2a (functions_.py lines 119-122). -/
def b2aNearest (annotated predicted : List Int) : List Int :=
  predicted.map (fun b => ((argminAbs annotated b : Nat) : Int))

/-- a2b after many-to-one resolution (functions_.py lines 126-132). -/
def a2bResolved (annotated predicted : List Int) : List Int :=
  resolveDuplicates (a2bNearest annotated predicted) (b2aNearest annotated predicted)

/-- b2a after many-to-one resolution against the already-updated a2b
(functions_.py lines 134-138). -/
def b2aResolved (annotated predicted : List Int) : List Int :=
  resolveDuplicates (b2aNearest annotated predicted) (a2bResolved annotated predicted)

/-- a2b after the first reciprocity pass (functions_.py line 144). -/
def a2bPass1 (annotated predicted : List Int) : List Int :=
  reciprocityPass (a2bResolved annotated predicted) (b2aResolved annotated predicted)

/-- b2a after the symmetric reciprocity pass (functions_.py line 147). -/
def b2aPass2 (annotated predicted : List Int) : List Int :=
  reciprocityPass (b2aResolved annotated predicted) (a2bPass1 annotated predicted)

/-- a2b after the second-round check (functions_.py lines 149-150); b2a gets
no such second round. -/
def a2bPass3 (annotated predicted : List Int) : List Int :=
  reciprocityPass (a2bPass1 annotated predicted) (b2aPass2 annotated predicted)

/-- Pointer state as it stands at functions_.py line 152, just before the time
differences are formed. -/
def matchedPointers (annotated predicted : List Int) : List Int × List Int :=
  (a2bPass3 annotated predicted, b2aPass2 annotated predicted)

/-- Main path of compare_events (functions_.py lines 113-165), both inputs
non-empty: pointer resolution, provisional time differences, threshold
rejection, final time differences. -/
def compareEventsMain (annotated predicted : List Int) (thr : Int) :
    Option (List Int × List Int × List Int) :=
  let a2b := (matchedPointers annotated predicted).1
  let b2a := (matchedPointers annotated predicted).2
  match broadcastSub (maskGt predicted b2a) (maskGt annotated a2b) with
  | none => none
  | some td =>
    match thresholdLoop a2b b2a (a2b.filter (fun v => -999 < v))
        (b2a.filter (fun v => -999 < v)) td thr with
    | none => none
    | some (a2bF, b2aF) =>
      match broadcastSub (maskGt predicted b2aF) (maskGt annotated a2bF) with
      | none => none
      | some tdF => some (a2bF, b2aF, tdF)

/-- compare_events (functions_.py lines 89-165). Returns the
annotated-to-predicted pointers, the predicted-to-annotated pointers and the
time differences; none models a numpy exception. -/
def compare_events (annotated predicted : List Int) (thr : Int) :
    Option (List Int × List Int × List Int) :=
  if annotated.length = 0 ∧ predicted.length = 0 then
    some ([], [], [])
  else if annotated.length ≠ 0 ∧ predicted.length = 0 then
    some (List.replicate annotated.length (-999), [],
          List.replicate annotated.length (-999))
  else if annotated.length = 0 ∧ predicted.length ≠ 0 then
    some ([], List.replicate predicted.length (-999),
          List.replicate predicted.length (-999))
  else
    compareEventsMain annotated predicted thr

/-- MetricsGaitEvents (functions_.py lines 167-208): missed and extra counts
and the aligned predicted-event vector. The fancy-index assignment
predicted_aligned[matched_events] = ipksDUT_[predictions_2_targets != -999]
broadcasts a length-1 value array and raises ValueError (none) on any other
length mismatch. -/
def missedCount (t2p : List Int) : Nat :=
  (t2p.filter (fun v => v == -999)).length

def extraCount (p2t : List Int) : Nat :=
  (p2t.filter (fun v => v == -999)).length

/-- matched_events = np.argwhere(targets_2_predictions != -999)[:,0]
(functions_.py line 204). -/
def matchedEvents (t2p : List Int) : List Nat :=
  (List.range t2p.length).filter (fun i => t2p.getD i 0 != -999)

def MetricsGaitEvents (ipksGS ipksDUT t2p p2t : List Int) :
    Option (Nat × Nat × List Int) :=
  if (maskNe ipksDUT p2t).length = (matchedEvents t2p).length then
    some (missedCount t2p, extraCount p2t,
      ((matchedEvents t2p).zip (maskNe ipksDUT p2t)).foldl
        (fun acc p => acc.set p.1 p.2) (List.replicate ipksGS.length (-999 : Int)))
  else if (maskNe ipksDUT p2t).length = 1 then
    some (missedCount t2p, extraCount p2t,
      (matchedEvents t2p).foldl
        (fun acc i => acc.set i ((maskNe ipksDUT p2t).getD 0 0))
        (List.replicate ipksGS.length (-999 : Int)))
  else none

/-- np.argwhere(l == x)[:,0]: the positions of l holding value x. -/
def argwhereEq (l : List Int) (x : Int) : List Nat :=
  (List.range l.length).filter (fun i => l.getD i 0 == x)

/-- ipksGS_ = np.argwhere(targetLabel == 1)[:,0] (functions_.py line 277), as
integers. -/
def gsIndices (targetLabel : List Int) : List Int :=
  (argwhereEq targetLabel 1).map (fun n => Int.ofNat n)

/-- Loop body of modelEvaluate (functions_.py lines 241-299). Each window is a
pair (targetLabel, ipksDUT0) where ipksDUT0 is the output of the external peak
finder on the window's predicted probability curve (lines 269-275, delegated to
scipy). windowLen is preds.shape[1]. The accumulator carries missedEvents,
extraEvents, GSevents, Differences, ipksDUT and ipksGS; the float nan written
over -999 entries (line 293) is modelled as Option.none. -/
def modelEvaluateGo (windowLen : Nat) :
    List (List Int × List Int) → Nat → Nat → Nat → Nat → List Int →
      List (Option Int) → List Int →
      Option (Nat × Nat × Nat × List Int × List (Option Int) × List Int)
  | [], _, missedEvents, extraEvents, gsEvents, diffs, ipksDUT, ipksGS =>
      some (missedEvents, extraEvents, gsEvents, diffs, ipksDUT, ipksGS)
  | (targetLabel, ipksDUT0) :: ws, i, missedEvents, extraEvents, gsEvents,
      diffs, ipksDUT, ipksGS =>
    match compare_events (gsIndices targetLabel) ipksDUT0 20 with
    | none => none
    | some (t2p, p2t, td) =>
      match MetricsGaitEvents (gsIndices targetLabel) ipksDUT0 t2p p2t with
      | none => none
      | some (missed, extra, aligned) =>
        modelEvaluateGo windowLen ws (i + 1) (missedEvents + missed)
          (extraEvents + extra) (gsEvents + (gsIndices targetLabel).length)
          (diffs ++ td)
          (ipksDUT ++ aligned.map (fun v =>
            if v == -999 then none else some (((i * windowLen : Nat) : Int) + v + 1)))
          (ipksGS ++ (gsIndices targetLabel).map (fun v =>
            ((i * windowLen : Nat) : Int) + v + 1))

/-- modelEvaluate (functions_.py lines 209-300): returns
(extraEvents, missedEvents, ipksDUT, ipksGS). -/
def modelEvaluate (windowLen : Nat) (windows : List (List Int × List Int)) :
    Option (Nat × Nat × List (Option Int) × List Int) :=
  match modelEvaluateGo windowLen windows 0 0 0 0 [] [] [] with
  | none => none
  | some (missedEvents, extraEvents, _, _, ipksDUT, ipksGS) =>
      some (extraEvents, missedEvents, ipksDUT, ipksGS)

/-! Properties of the correspondence arrays. -/

/-- Every entry is the sentinel or a valid index below n. -/
def PtrOk (n : Nat) (l : List Int) : Prop :=
  ∀ v ∈ l, v = -999 ∨ (0 ≤ v ∧ v < (n : Int))

/-- The two pointer arrays are mutually reciprocal: every valid forward
pointer is returned by the corresponding backward pointer and vice versa. -/
def Reciprocal (a2b b2a : List Int) : Prop :=
  (∀ i < a2b.length, a2b.getD i (-999) ≠ -999 →
    b2a.getD (a2b.getD i (-999)).toNat (-999) = (i : Int)) ∧
  (∀ j < b2a.length, b2a.getD j (-999) ≠ -999 →
    a2b.getD (b2a.getD j (-999)).toNat (-999) = (j : Int))

/-- Every valid forward pointer joins two events whose absolute timing
difference is at most thr. -/
def WithinThreshold (annotated predicted a2b : List Int) (thr : Int) : Prop :=
  ∀ i < a2b.length, a2b.getD i (-999) ≠ -999 →
    ((predicted.getD (a2b.getD i (-999)).toNat 0 - annotated.getD i 0).natAbs : Int) ≤ thr

/-- Number of mutually reciprocal matched pairs of a correspondence. -/
def reciprocalPairCount (a2b b2a : List Int) : Nat :=
  ((List.range a2b.length).filter (fun i =>
    (a2b.getD i (-999) != -999) &&
      (b2a.getD (a2b.getD i (-999)).toNat (-999) == (i : Int)))).length

/-- The aligned predicted-event vector carries, at every annotated position
with a valid pointer, the sample index of the matched predicted event, and the
sentinel elsewhere. -/
def AlignedCorrect (predicted a2b aligned : List Int) : Prop :=
  ∀ i < aligned.length,
    (a2b.getD i (-999) ≠ -999 →
      aligned.getD i (-999) = predicted.getD (a2b.getD i (-999)).toNat 0) ∧
    (a2b.getD i (-999) = -999 → aligned.getD i (-999) = -999)

/-! Concrete evaluations used by several claims. -/

/-- C1 counterexample: with one annotated event and no predicted events, the
returned timing-difference array is [-999], not the empty array the claim
requires. -/
theorem compare_events_empty_pred_timing_not_empty :
    compare_events [(0 : Int)] [] 20 = some ([-999], [], [-999]) ∧
      ([(-999 : Int)] : List Int) ≠ [] := by
  exact ⟨by decide, by decide⟩

/-- C1 (amended): with both inputs empty, compare_events returns three empty
arrays; with annotated non-empty and predicted empty it returns an
all-sentinel annotated pointer array, an empty predicted array and an
all-sentinel timing array of the same length as annotated; symmetrically in
the other direction. -/
theorem compare_events_empty_cases (annotated predicted : List Int) (thr : Int) :
    compare_events [] [] thr = some ([], [], []) ∧
    (annotated ≠ [] → compare_events annotated [] thr =
      some (List.replicate annotated.length (-999), [],
            List.replicate annotated.length (-999))) ∧
    (predicted ≠ [] → compare_events [] predicted thr =
      some ([], List.replicate predicted.length (-999),
            List.replicate predicted.length (-999))) := by
  refine ⟨rfl, fun ha => ?_, fun hb => ?_⟩
  · have h0 : annotated.length ≠ 0 := by
      simpa using fun h => ha (List.length_eq_zero.mp h)
    simp [compare_events, h0]
  · have h0 : predicted.length ≠ 0 := by
      simpa using fun h => hb (List.length_eq_zero.mp h)
    simp [compare_events, h0]

/-- C1 witness: the amended edge-case behaviour at concrete inputs. -/
theorem compare_events_empty_cases_witness :
    compare_events [(0 : Int)] [] 20 = some ([-999], [], [-999]) ∧
      compare_events [] [(3 : Int)] 20 = some ([], [-999], [-999]) :=
  ⟨(compare_events_empty_cases [(0 : Int)] [(3 : Int)] 20).2.1 (by decide),
   (compare_events_empty_cases [(0 : Int)] [(3 : Int)] 20).2.2 (by decide)⟩

/-- C5: on annotated = [100, 105], predicted = [102], thr = 20, the ambiguous
many-to-one candidates resolve to the pair selected by the predicted event's
back-pointer: annotated 100 is matched to predicted 102, annotated 105 is
unmatched, and the metrics are missed = 1, extra = 0. -/
theorem compare_events_ambiguous_scenario :
    compare_events [(100 : Int), 105] [102] 20 = some ([0, -999], [0], [2]) ∧
      MetricsGaitEvents [(100 : Int), 105] [102] [0, -999] [0] =
        some (1, 0, [102, -999]) := by
  exact ⟨by decide, by decide⟩

/-- C8: on annotated = [50, 150], predicted = [52, 300], thr = 20, exactly the
pair (50, 52) survives with timing difference 2, annotated 150 is missed,
predicted 300 is extra: missed = 1, extra = 1, timing differences [2]. -/
theorem compare_events_scenario_a :
    compare_events [(50 : Int), 150] [52, 300] 20 =
        some ([0, -999], [0, -999], [2]) ∧
      MetricsGaitEvents [(50 : Int), 150] [52, 300] [0, -999] [0, -999] =
        some (1, 1, [52, -999]) := by
  exact ⟨by decide, by decide⟩

/-- C3 failing input: on annotated = [0, 1, 3], predicted = [0, 2, 4],
thr = 20, compare_events returns b2a[2] = 2 while a2b[2] = -999: the surviving
predicted-side pointer is not reciprocated, so the output is not a set of
mutually reciprocal pairs. -/
theorem compare_events_not_reciprocal :
    compare_events [(0 : Int), 1, 3] [0, 2, 4] 20 =
        some ([0, -999, -999], [0, -999, 2], [0, 4]) ∧
      ¬ Reciprocal [0, -999, -999] [0, -999, 2] := by
  refine ⟨by decide, ?_⟩
  unfold Reciprocal
  decide

/-- C2 failing input: on annotated = [0, 1, 3, 5], predicted = [0, 2, 4],
thr = 0, the provisional pair (annotated 3, predicted 2) has absolute
difference 1 > 0, yet the returned a2b keeps a2b[3] = 2: the surviving pointer
violates the threshold. -/
theorem compare_events_threshold_violated :
    compare_events [(0 : Int), 1, 3, 5] [0, 2, 4] 0 =
        some ([0, -999, -999, 2], [0, -999, -999], [0, -5]) ∧
      ¬ WithinThreshold [0, 1, 3, 5] [0, 2, 4] [0, -999, -999, 2] 0 := by
  refine ⟨by decide, ?_⟩
  unfold WithinThreshold
  decide

/-- C4 failing input: on annotated = [0, 1, 3, 5], predicted = [0, 2, 4],
thr = 0, the pipeline completes with missed = 2 while only one mutually
reciprocal pair survives, so missed + matched pairs = 3, not
len(annotated) = 4. -/
theorem count_conservation_violated :
    compare_events [(0 : Int), 1, 3, 5] [0, 2, 4] 0 =
        some ([0, -999, -999, 2], [0, -999, -999], [0, -5]) ∧
      MetricsGaitEvents [(0 : Int), 1, 3, 5] [0, 2, 4]
          [0, -999, -999, 2] [0, -999, -999] = some (2, 2, [0, -999, -999, 0]) ∧
      2 + reciprocalPairCount [0, -999, -999, 2] [0, -999, -999] ≠ 4 := by
  refine ⟨by decide, by decide, by decide⟩

/-- C6 failing input: on annotated = [0, 1, 3, 5], predicted = [0, 2, 4],
thr = 0, the aligned vector returned by MetricsGaitEvents carries 0 at
annotated position 3, although that position's pointer selects predicted event
4: the numpy broadcast writes the single valid predicted value everywhere. -/
theorem aligned_value_wrong :
    MetricsGaitEvents [(0 : Int), 1, 3, 5] [0, 2, 4]
        [0, -999, -999, 2] [0, -999, -999] = some (2, 2, [0, -999, -999, 0]) ∧
      ¬ AlignedCorrect [0, 2, 4] [0, -999, -999, 2] [0, -999, -999, 0] := by
  refine ⟨by decide, ?_⟩
  unfold AlignedCorrect
  decide

/-! ### Range invariant of the pointer arrays (C10) -/

theorem argminAbs_lt_length (bs : List Int) (x : Int) (h : bs ≠ []) :
    argminAbs bs x < bs.length := by
  have h0 : 0 < bs.length := List.length_pos.mpr h
  have key : ∀ (l : List Nat) (acc : Nat), acc < bs.length → (∀ j ∈ l, j < bs.length) →
      l.foldl (fun best j =>
        if (bs.getD j 0 - x).natAbs < (bs.getD best 0 - x).natAbs then j else best)
        acc < bs.length := by
    intro l
    induction l with
    | nil => intro acc ha _; simpa using ha
    | cons y l ih =>
      intro acc ha hl
      simp only [List.foldl_cons]
      apply ih
      · split
        · exact hl y (List.mem_cons_self y l)
        · exact ha
      · intro j hj
        exact hl j (List.mem_cons_of_mem y hj)
  unfold argminAbs
  exact key (List.range bs.length) 0 h0 (fun j hj => List.mem_range.mp hj)

theorem ptrOk_set {n : Nat} {l : List Int} (h : PtrOk n l) (k : Nat) :
    PtrOk n (l.set k (-999)) := by
  intro v hv
  rcases List.mem_or_eq_of_mem_set hv with hv' | rfl
  · exact h v hv'
  · exact Or.inl rfl

theorem ptrOk_setFold {n : Nat} (idxs : List Nat) :
    ∀ {l : List Int}, PtrOk n l →
      PtrOk n (idxs.foldl (fun c i => c.set i (-999)) l) := by
  induction idxs with
  | nil => intro l h; simpa using h
  | cons i idxs ih =>
    intro l h
    simp only [List.foldl_cons]
    exact ih (ptrOk_set h i)

theorem ptrOk_resolveStep {n : Nat} (other : List Int) {cur : List Int}
    (h : PtrOk n cur) (u : Int) : PtrOk n (resolveStep other cur u) := by
  unfold resolveStep
  split
  · exact ptrOk_setFold _ h
  · exact h

theorem ptrOk_resolveFold {n : Nat} (other : List Int) (us : List Int) :
    ∀ {cur : List Int}, PtrOk n cur →
      PtrOk n (us.foldl (resolveStep other) cur) := by
  induction us with
  | nil => intro cur h; simpa using h
  | cons u us ih =>
    intro cur h
    simp only [List.foldl_cons]
    exact ih (ptrOk_resolveStep other h u)

theorem ptrOk_resolveDuplicates {n : Nat} {ptr : List Int} (other : List Int)
    (h : PtrOk n ptr) : PtrOk n (resolveDuplicates ptr other) := by
  unfold resolveDuplicates
  exact ptrOk_resolveFold other (uniqueSorted ptr) h

theorem ptrOk_reciprocityPass {n : Nat} {ptr : List Int} (other : List Int)
    (h : PtrOk n ptr) : PtrOk n (reciprocityPass ptr other) := by
  intro v hv
  unfold reciprocityPass at hv
  rcases List.mem_map.mp hv with ⟨w, hw, rfl⟩
  split
  · exact Or.inl rfl
  · exact h w hw

theorem foldl_thresholdStep_none (idxa idxb td : List Int) (thr : Int)
    (l : List Nat) : l.foldl (thresholdStep idxa idxb td thr) none = none := by
  induction l with
  | nil => rfl
  | cons ti l ih => simpa [thresholdStep] using ih

theorem thresholdStep_some (idxa idxb td : List Int) (thr : Int)
    (ab ba : List Int) (ti : Nat) :
    thresholdStep idxa idxb td thr (some (ab, ba)) ti =
      if thr < ((td.getD ti 0).natAbs : Int) then
        if ti < idxb.length then
          if ti < idxa.length then
            some (ab.set (idxb.getD ti 0).toNat (-999),
                  ba.set (idxa.getD ti 0).toNat (-999))
          else none
        else none
      else some (ab, ba) := rfl

theorem foldl_thresholdStep_ptrOk {m n : Nat} {idxa idxb td : List Int}
    {thr : Int} (l : List Nat) :
    ∀ {ab ba a' b' : List Int}, PtrOk m ab → PtrOk n ba →
      l.foldl (thresholdStep idxa idxb td thr) (some (ab, ba)) = some (a', b') →
      PtrOk m a' ∧ PtrOk n b' := by
  induction l with
  | nil =>
    intro ab ba a' b' ha hb h
    simp only [List.foldl_nil, Option.some.injEq, Prod.mk.injEq] at h
    obtain ⟨rfl, rfl⟩ := h
    exact ⟨ha, hb⟩
  | cons ti l ih =>
    intro ab ba a' b' ha hb h
    simp only [List.foldl_cons, thresholdStep_some] at h
    split at h
    · split at h
      · split at h
        · exact ih (ptrOk_set ha _) (ptrOk_set hb _) h
        · rw [foldl_thresholdStep_none] at h
          cases h
      · rw [foldl_thresholdStep_none] at h
        cases h
    · exact ih ha hb h

theorem thresholdLoop_ptrOk {m n : Nat} {a2b b2a idxa idxb td : List Int}
    {thr : Int} {a' b' : List Int} (ha : PtrOk m a2b) (hb : PtrOk n b2a)
    (h : thresholdLoop a2b b2a idxa idxb td thr = some (a', b')) :
    PtrOk m a' ∧ PtrOk n b' := by
  unfold thresholdLoop at h
  exact foldl_thresholdStep_ptrOk _ ha hb h

theorem matchedPointers_ptrOk (annotated predicted : List Int)
    (ha : annotated ≠ []) (hb : predicted ≠ []) :
    PtrOk predicted.length (matchedPointers annotated predicted).1 ∧
      PtrOk annotated.length (matchedPointers annotated predicted).2 := by
  have h1 : PtrOk predicted.length (a2bNearest annotated predicted) := by
    intro v hv
    rcases List.mem_map.mp hv with ⟨a, _, rfl⟩
    refine Or.inr ⟨Int.natCast_nonneg _, ?_⟩
    exact_mod_cast argminAbs_lt_length predicted a hb
  have h2 : PtrOk annotated.length (b2aNearest annotated predicted) := by
    intro v hv
    rcases List.mem_map.mp hv with ⟨b, _, rfl⟩
    refine Or.inr ⟨Int.natCast_nonneg _, ?_⟩
    exact_mod_cast argminAbs_lt_length annotated b ha
  constructor
  · exact ptrOk_reciprocityPass _ (ptrOk_reciprocityPass _
      (ptrOk_resolveDuplicates _ h1))
  · exact ptrOk_reciprocityPass _ (ptrOk_resolveDuplicates _ h2)

/-- C10: for non-empty inputs, every entry of the returned a2b array is the
sentinel -999 or a valid index into predicted, and every entry of the returned
b2a array is the sentinel or a valid index into annotated: the matching passes
only ever replace pointers with the sentinel. -/
theorem compare_events_pointer_ranges (annotated predicted : List Int)
    (thr : Int) (a2b b2a td : List Int)
    (ha : annotated ≠ []) (hb : predicted ≠ [])
    (h : compare_events annotated predicted thr = some (a2b, b2a, td)) :
    PtrOk predicted.length a2b ∧ PtrOk annotated.length b2a := by
  have hla : ¬ annotated.length = 0 := fun h0 => ha (List.length_eq_zero.mp h0)
  have hlb : ¬ predicted.length = 0 := fun h0 => hb (List.length_eq_zero.mp h0)
  unfold compare_events at h
  rw [if_neg (fun hc => hla hc.1), if_neg (fun hc => hlb hc.2),
    if_neg (fun hc => hla hc.1)] at h
  unfold compareEventsMain at h
  dsimp only at h
  obtain ⟨hm1, hm2⟩ := matchedPointers_ptrOk annotated predicted ha hb
  cases hbs : broadcastSub (maskGt predicted (matchedPointers annotated predicted).2)
      (maskGt annotated (matchedPointers annotated predicted).1) with
  | none => simp only [hbs] at h; cases h
  | some td0 =>
    simp only [hbs] at h
    cases hts : thresholdLoop (matchedPointers annotated predicted).1
        (matchedPointers annotated predicted).2
        ((matchedPointers annotated predicted).1.filter (fun v => -999 < v))
        ((matchedPointers annotated predicted).2.filter (fun v => -999 < v))
        td0 thr with
    | none => simp only [hts] at h; cases h
    | some pr =>
      obtain ⟨aF, bF⟩ := pr
      simp only [hts] at h
      have hp := thresholdLoop_ptrOk hm1 hm2 hts
      cases hbs2 : broadcastSub (maskGt predicted bF) (maskGt annotated aF) with
      | none => simp only [hbs2] at h; cases h
      | some tdF =>
        simp only [hbs2, Option.some.injEq, Prod.mk.injEq] at h
        obtain ⟨rfl, rfl, rfl⟩ := h
        exact hp

/-- C10 witness: the range invariant at a concrete non-empty input. -/
theorem compare_events_pointer_ranges_witness :
    PtrOk 3 [(0 : Int), -999, -999] ∧ PtrOk 3 [(0 : Int), -999, 2] :=
  compare_events_pointer_ranges [0, 1, 3] [0, 2, 4] 20
    [0, -999, -999] [0, -999, 2] [0, 4] (by decide) (by decide) (by decide)

/-! ### Window offsetting and parallel output lengths (C7, C9) -/

/-- Per-window pipeline of modelEvaluate: target indices, compare_events with
thr = 20, MetricsGaitEvents (functions_.py lines 277-281). -/
def windowAligned (targetLabel ipksDUT0 : List Int) : Option (Nat × Nat × List Int) :=
  match compare_events (gsIndices targetLabel) ipksDUT0 20 with
  | none => none
  | some (t2p, p2t, _) => MetricsGaitEvents (gsIndices targetLabel) ipksDUT0 t2p p2t

/-- Following the spec's description of WindowEvaluator step 5: the
ground-truth indices of the window at index i, shifted by i*L + 1, appended in
window order. -/
def gsSpecFrom (L : Nat) : Nat → List (List Int × List Int) → List Int
  | _, [] => []
  | i, (t, _) :: ws =>
    (gsIndices t).map (fun v => ((i * L : Nat) : Int) + v + 1) ++
      gsSpecFrom L (i + 1) ws

/-- Following the spec's description of WindowEvaluator step 5: each window's
aligned-predicted events with no-match entries as none, shifted by i*L + 1,
appended in window order. -/
def dutSpecFrom (L : Nat) : Nat → List (List Int × List Int) → List (Option Int)
  | _, [] => []
  | i, (t, p) :: ws =>
    (match windowAligned t p with
     | none => []
     | some (_, _, aligned) =>
         aligned.map (fun v =>
           if v == -999 then none else some (((i * L : Nat) : Int) + v + 1))) ++
      dutSpecFrom L (i + 1) ws

/-- Target label of length 200 with a single event marker at local index k. -/
def windowLabel (k : Nat) : List Int :=
  (List.range 200).map (fun n => if n == k then 1 else 0)

/-- Two consecutive windows of length 200: a ground-truth event at local index
10 in window 0 and at local index 5 in window 1; no predicted events. -/
def scenarioWindows : List (List Int × List Int) :=
  [(windowLabel 10, []), (windowLabel 5, [])]

theorem modelEvaluateGo_spec (L : Nat) (ws : List (List Int × List Int)) :
    ∀ (i mE eE gE : Nat) (df : List Int) (dut : List (Option Int)) (gs : List Int)
      (mE' eE' gE' : Nat) (df' : List Int) (dut' : List (Option Int)) (gs' : List Int),
      modelEvaluateGo L ws i mE eE gE df dut gs =
        some (mE', eE', gE', df', dut', gs') →
      dut' = dut ++ dutSpecFrom L i ws ∧ gs' = gs ++ gsSpecFrom L i ws := by
  induction ws with
  | nil =>
    intro i mE eE gE df dut gs mE' eE' gE' df' dut' gs' h
    simp only [modelEvaluateGo, Option.some.injEq, Prod.mk.injEq] at h
    obtain ⟨-, -, -, -, rfl, rfl⟩ := h
    simp [gsSpecFrom, dutSpecFrom]
  | cons w ws ih =>
    obtain ⟨t, p⟩ := w
    intro i mE eE gE df dut gs mE' eE' gE' df' dut' gs' h
    simp only [modelEvaluateGo] at h
    cases hc : compare_events (gsIndices t) p 20 with
    | none => simp only [hc] at h; cases h
    | some tr =>
      obtain ⟨t2p, p2t, td⟩ := tr
      simp only [hc] at h
      cases hm : MetricsGaitEvents (gsIndices t) p t2p p2t with
      | none => simp only [hm] at h; cases h
      | some mr =>
        obtain ⟨missed, extra, aligned⟩ := mr
        simp only [hm] at h
        obtain ⟨hdut, hgs⟩ := ih _ _ _ _ _ _ _ _ _ _ _ _ _ h
        constructor
        · rw [hdut]
          simp [dutSpecFrom, windowAligned, hc, hm, List.append_assoc]
        · rw [hgs]
          simp [gsSpecFrom, List.append_assoc]

set_option maxRecDepth 8000 in
/-- C7 counterexample: on the literal scenario (two windows of length 200,
ground-truth events at local index 10 of window 0 and local index 5 of window
1), the absolute ground-truth sequence is [11, 206], not the [11, 215] the
claim states: 1*200 + 5 + 1 = 206. -/
theorem modelEvaluate_scenario_c_value :
    modelEvaluate 200 scenarioWindows = some (0, 2, [none, none], [11, 206]) ∧
      ([(11 : Int), 206] : List Int) ≠ [11, 215] := by
  exact ⟨by decide, by decide⟩

/-- C7 (amended): whenever modelEvaluate succeeds, the returned ground-truth
sequence is exactly each window's ground-truth indices shifted by i*L + 1 and
appended in window order, and the returned predicted sequence is exactly each
window's aligned-predicted events shifted by i*L + 1 (no-match entries staying
no-match); in particular the literal scenario yields [11, 206]. -/
theorem modelEvaluate_offsets (L : Nat) (ws : List (List Int × List Int))
    (e m : Nat) (dut : List (Option Int)) (gs : List Int)
    (h : modelEvaluate L ws = some (e, m, dut, gs)) :
    gs = gsSpecFrom L 0 ws ∧ dut = dutSpecFrom L 0 ws := by
  unfold modelEvaluate at h
  cases hg : modelEvaluateGo L ws 0 0 0 0 [] [] [] with
  | none => simp only [hg] at h; cases h
  | some r =>
    obtain ⟨mE', eE', gE', df', dut', gs'⟩ := r
    simp only [hg, Option.some.injEq, Prod.mk.injEq] at h
    obtain ⟨-, -, rfl, rfl⟩ := h
    obtain ⟨hdut, hgs⟩ := modelEvaluateGo_spec L ws _ _ _ _ _ _ _ _ _ _ _ _ _ hg
    simp only [List.nil_append] at hdut hgs
    exact ⟨hgs, hdut⟩

set_option maxRecDepth 8000 in
/-- C7 witness: the amended offset formula evaluated on the literal scenario
gives [11, 206] on the ground-truth side and two no-match entries on the
predicted side. -/
theorem modelEvaluate_offsets_witness :
    gsSpecFrom 200 0 scenarioWindows = [11, 206] ∧
      dutSpecFrom 200 0 scenarioWindows = [none, none] := by
  have h := modelEvaluate_offsets 200 scenarioWindows 0 2 [none, none] [11, 206]
    (by decide)
  exact ⟨h.1.symm, h.2.symm⟩

theorem foldl_set_pair_length (ps : List (Nat × Int)) :
    ∀ acc : List Int,
      (ps.foldl (fun acc p => acc.set p.1 p.2) acc).length = acc.length := by
  induction ps with
  | nil => intro acc; rfl
  | cons p ps ih =>
    intro acc
    simp only [List.foldl_cons]
    rw [ih, List.length_set]

theorem foldl_set_const_length (x : Int) (is : List Nat) :
    ∀ acc : List Int,
      (is.foldl (fun acc i => acc.set i x) acc).length = acc.length := by
  induction is with
  | nil => intro acc; rfl
  | cons i is ih =>
    intro acc
    simp only [List.foldl_cons]
    rw [ih, List.length_set]

theorem MetricsGaitEvents_aligned_length {ipksGS ipksDUT t2p p2t : List Int}
    {missed extra : Nat} {aligned : List Int}
    (h : MetricsGaitEvents ipksGS ipksDUT t2p p2t = some (missed, extra, aligned)) :
    aligned.length = ipksGS.length := by
  unfold MetricsGaitEvents at h
  split at h
  · simp only [Option.some.injEq, Prod.mk.injEq] at h
    obtain ⟨-, -, rfl⟩ := h
    rw [foldl_set_pair_length, List.length_replicate]
  · split at h
    · simp only [Option.some.injEq, Prod.mk.injEq] at h
      obtain ⟨-, -, rfl⟩ := h
      rw [foldl_set_const_length, List.length_replicate]
    · cases h

theorem modelEvaluateGo_len (L : Nat) (ws : List (List Int × List Int)) :
    ∀ (i mE eE gE : Nat) (df : List Int) (dut : List (Option Int)) (gs : List Int)
      (mE' eE' gE' : Nat) (df' : List Int) (dut' : List (Option Int)) (gs' : List Int),
      modelEvaluateGo L ws i mE eE gE df dut gs =
        some (mE', eE', gE', df', dut', gs') →
      dut'.length = dut.length + (ws.map (fun w => (argwhereEq w.1 1).length)).sum ∧
        gs'.length = gs.length + (ws.map (fun w => (argwhereEq w.1 1).length)).sum := by
  induction ws with
  | nil =>
    intro i mE eE gE df dut gs mE' eE' gE' df' dut' gs' h
    simp only [modelEvaluateGo, Option.some.injEq, Prod.mk.injEq] at h
    obtain ⟨-, -, -, -, rfl, rfl⟩ := h
    simp
  | cons w ws ih =>
    obtain ⟨t, p⟩ := w
    intro i mE eE gE df dut gs mE' eE' gE' df' dut' gs' h
    simp only [modelEvaluateGo] at h
    cases hc : compare_events (gsIndices t) p 20 with
    | none => simp only [hc] at h; cases h
    | some tr =>
      obtain ⟨t2p, p2t, td⟩ := tr
      simp only [hc] at h
      cases hm : MetricsGaitEvents (gsIndices t) p t2p p2t with
      | none => simp only [hm] at h; cases h
      | some mr =>
        obtain ⟨missed, extra, aligned⟩ := mr
        simp only [hm] at h
        obtain ⟨hdut, hgs⟩ := ih _ _ _ _ _ _ _ _ _ _ _ _ _ h
        have hgl : (gsIndices t).length = (argwhereEq t 1).length := by
          unfold gsIndices
          exact List.length_map _ _
        have hal : aligned.length = (argwhereEq t 1).length := by
          rw [MetricsGaitEvents_aligned_length hm]
          exact hgl
        have hfst : (argwhereEq (t, p).1 1).length = (argwhereEq t 1).length := rfl
        constructor
        · rw [hdut, List.length_append, List.length_map, List.map_cons,
            List.sum_cons, hal]
          omega
        · rw [hgs, List.length_append, List.length_map, List.map_cons,
            List.sum_cons, hgl]
          omega

/-- C9: whenever modelEvaluate succeeds, the accumulated predicted-timestamp
sequence and the accumulated ground-truth-timestamp sequence have equal
length, each window contributing exactly as many entries to both as it has
ground-truth events. -/
theorem modelEvaluate_parallel_lengths (L : Nat) (ws : List (List Int × List Int))
    (e m : Nat) (dut : List (Option Int)) (gs : List Int)
    (h : modelEvaluate L ws = some (e, m, dut, gs)) :
    dut.length = gs.length ∧
      gs.length = (ws.map (fun w => (argwhereEq w.1 1).length)).sum := by
  unfold modelEvaluate at h
  cases hg : modelEvaluateGo L ws 0 0 0 0 [] [] [] with
  | none => simp only [hg] at h; cases h
  | some r =>
    obtain ⟨mE', eE', gE', df', dut', gs'⟩ := r
    simp only [hg, Option.some.injEq, Prod.mk.injEq] at h
    obtain ⟨-, -, rfl, rfl⟩ := h
    obtain ⟨hdut, hgs⟩ := modelEvaluateGo_len L ws _ _ _ _ _ _ _ _ _ _ _ _ _ hg
    simp only [List.length_nil, Nat.zero_add] at hdut hgs
    exact ⟨by rw [hdut, hgs], hgs⟩

set_option maxRecDepth 8000 in
/-- C9 witness: the parallel-length property at the concrete two-window
scenario. -/
theorem modelEvaluate_parallel_lengths_witness :
    ([none, none] : List (Option Int)).length = ([(11 : Int), 206] : List Int).length ∧
      ([(11 : Int), 206] : List Int).length =
        (scenarioWindows.map (fun w => (argwhereEq w.1 1).length)).sum :=
  modelEvaluate_parallel_lengths 200 scenarioWindows 0 2 [none, none] [11, 206]
    (by decide)

end HeadGait
